import Mathlib

/-!
Shallow embedding of the PKONE hardware platform layer
(`mpf/platforms/pkone/pkone.py` and `mpf/platforms/pkone/pkone_servo.py`).

Python semantics that the embedding relies on:
* `dict` preserves insertion order; inserting a fresh key appends it.
* `"a-b".split("-")` with a one-character separator keeps empty fields, and
  unpacking into two variables raises `ValueError` unless exactly two fields
  result.
* `int(text)` accepts an optional sign followed by decimal digits and raises
  `ValueError` otherwise.
* `bytearray().extend(text)` on a `str` raises `TypeError` as soon as the
  first character is reached (a character is not an integer); extending with
  the empty string is a no-op.
* `s[i]` on a too-short string raises `IndexError`; slices never raise.
* `int(x)` on a float truncates toward zero.
-/

namespace PKONE

instance {ε α : Type} [DecidableEq ε] [DecidableEq α] : DecidableEq (Except ε α) :=
  fun x y =>
    match x, y with
    | .ok a, .ok b =>
      if h : a = b then .isTrue (h ▸ rfl) else .isFalse (fun he => h (Except.ok.inj he))
    | .error a, .error b =>
      if h : a = b then .isTrue (h ▸ rfl) else .isFalse (fun he => h (Except.error.inj he))
    | .ok _, .error _ => .isFalse (fun he => Except.noConfusion he)
    | .error _, .ok _ => .isFalse (fun he => Except.noConfusion he)

/-- The distinct failure kinds raised by the source (each `raise` site uses a
distinct message; inbound-frame decoding can also die with the builtin
`TypeError` / `ValueError` / `IndexError` exceptions). -/
inductive PKONEError where
  | duplicateAddress
  | addressOutOfRange
  | invalidNumber
  | unknownBoard
  | indexOutOfRange
  | crossBoardMismatch
  | unsupportedHardwareFeature
  | positionOutOfRange
  | typeError
  | valueError
  | indexError
deriving DecidableEq, Repr

/-- The board metadata consulted by `pkone.py`: `address_id` plus the declared
I/O counts of a `PKONEExtensionBoard` (a `PKONELightshowBoard` shares the
`address_id` namespace; its light counts are never consulted here). -/
structure Board where
  address_id : Int
  switch_count : Nat
  coil_count : Nat
  servo_count : Nat
deriving DecidableEq, Repr, Inhabited

/-- The mutable attributes of `PKONEHardwarePlatform` that the claims touch:
the two board dicts and `hw_switch_data` (a Python dict modelled as an
insertion-ordered association list). -/
structure PKONEState where
  pkone_extensions : List (Int × Board)
  pkone_lightshows : List (Int × Board)
  hw_switch_data : Option (List (String × Nat))
deriving DecidableEq, Repr

/-- `__init__` (pkone.py lines 38-41): both dicts empty, `hw_switch_data = None`. -/
def initialPlatformState : PKONEState := ⟨[], [], none⟩

/-- Python `key in dict`. -/
def pyDictContains {α β : Type} [DecidableEq α] (d : List (α × β)) (k : α) : Bool :=
  d.any (fun p => p.1 = k)

/-- Python `dict[key]` lookup (`none` models `KeyError`; the source always
guards lookups with a membership test). -/
def pyDictGet? {α β : Type} [DecidableEq α] (d : List (α × β)) (k : α) : Option β :=
  (d.find? (fun p => p.1 = k)).map Prod.snd

/-- Python `dict[key] = value`: overwrite in place if the key exists, else
append (insertion order is preserved). -/
def pyDictSet {α β : Type} [DecidableEq α] (d : List (α × β)) (k : α) (v : β) :
    List (α × β) :=
  if d.any (fun p => p.1 = k) then d.map (fun p => if p.1 = k then (k, v) else p)
  else d ++ [(k, v)]

/-- Python `text.split(sep)` for a one-character separator (empty fields are
kept; the result always has one more segment than there are separators). -/
def splitOnChar (sep : Char) : List Char → List (List Char)
  | [] => [[]]
  | c :: rest =>
    match splitOnChar sep rest with
    | [] => [[]]
    | seg :: segs => if c = sep then [] :: seg :: segs else (c :: seg) :: segs

/-- Decimal value of a digit string (only applied when every char is a digit). -/
def digitsVal (l : List Char) : Nat :=
  l.foldl (fun n c => 10 * n + (c.toNat - 48)) 0

/-- Python `int(text)`: optional sign then one or more decimal digits, else
`ValueError` (modelled as `none`). -/
def pyIntChars : List Char → Option Int
  | '-' :: rest =>
    if rest ≠ [] ∧ rest.all Char.isDigit then some (-(digitsVal rest : Int)) else none
  | '+' :: rest =>
    if rest ≠ [] ∧ rest.all Char.isDigit then some (digitsVal rest : Int) else none
  | l =>
    if l ≠ [] ∧ l.all Char.isDigit then some (digitsVal l : Int) else none

/-- `register_extension_board` (pkone.py lines 135-144).  Returns the state
after the call together with the raised error, if any; the dict insert is the
final statement, after both checks. -/
def register_extension_board (board : Board) (s : PKONEState) :
    PKONEState × Option PKONEError :=
  if pyDictContains s.pkone_extensions board.address_id ∨
      pyDictContains s.pkone_lightshows board.address_id then
    (s, some .duplicateAddress)
  else if ¬(0 ≤ board.address_id ∧ board.address_id < 8) then
    (s, some .addressOutOfRange)
  else
    ({ s with pkone_extensions := pyDictSet s.pkone_extensions board.address_id board },
      none)

/-- `register_lightshow_board` (pkone.py lines 146-155).  Note line 155 of the
source: the final insert mutates `self.pkone_extensions`, not
`self.pkone_lightshows`. -/
def register_lightshow_board (board : Board) (s : PKONEState) :
    PKONEState × Option PKONEError :=
  if pyDictContains s.pkone_extensions board.address_id ∨
      pyDictContains s.pkone_lightshows board.address_id then
    (s, some .duplicateAddress)
  else if ¬(0 ≤ board.address_id ∧ board.address_id < 4) then
    (s, some .addressOutOfRange)
  else
    ({ s with pkone_extensions := pyDictSet s.pkone_extensions board.address_id board },
      none)

/-- Result type of `_parse_servo_number`: the `PKONEServoNumber` namedtuple. -/
structure PKONEServoNumber where
  board_address_id : Int
  servo_number : Int
deriving DecidableEq, Repr

/-- `_parse_servo_number` (pkone.py lines 280-299): split on `"-"` (two fields
or `AssertionError`), convert both fields with `int` (`ValueError` escapes the
`try`), require a registered extension board, then raise unless
`servo_count > servo_num - driver_count`; on success the raw `servo_num` is
returned unchanged. -/
def parse_servo_number (extensions : List (Int × Board)) (number : String) :
    Except PKONEError PKONEServoNumber :=
  match splitOnChar '-' number.toList with
  | [board_id_str, servo_num_str] =>
    match pyIntChars board_id_str with
    | none => .error .valueError
    | some board_id =>
      match pyIntChars servo_num_str with
      | none => .error .valueError
      | some servo_num =>
        match pyDictGet? extensions board_id with
        | none => .error .unknownBoard
        | some board =>
          if (board.servo_count : Int) ≤ servo_num - (board.coil_count : Int) then
            .error .indexOutOfRange
          else
            .ok ⟨board_id, servo_num⟩
  | _ => .error .invalidNumber

/-- `set_pulse_on_hit_and_enable_and_release_and_disable_rule` (pkone.py lines
268-278), the rule pattern numbered 6 in the spec: the body is a single
unconditional `raise AssertionError("Single-wound coils with EOS are not
implemented in PKONE hardware.")`; no driver command is ever produced. -/
def set_pulse_on_hit_and_enable_and_release_and_disable_rule {α β γ δ : Type}
    (enable_switch : α) (eos_switch : β) (coil : γ) (repulse_settings : Option δ) :
    Except PKONEError Unit :=
  .error .unsupportedHardwareFeature

/-- The loop of `_check_switch_coil_combination` (pkone.py lines 322-330):
walk the boards in dict iteration order carrying the running index bases,
succeeding as soon as one board covers both numbers simultaneously. -/
def checkWalk (switch_number coil_number : Int) :
    List Board → Int → Int → Bool
  | [], _, _ => false
  | board :: rest, switch_index, coil_index =>
    if switch_index ≤ switch_number ∧
        switch_number < switch_index + (board.switch_count : Int) ∧
        coil_index ≤ coil_number ∧
        coil_number < coil_index + (board.coil_count : Int) then
      true
    else
      checkWalk switch_number coil_number rest
        (switch_index + (board.switch_count : Int))
        (coil_index + (board.coil_count : Int))

/-- `_check_switch_coil_combination` (pkone.py lines 318-333) applied to the
two integers extracted on lines 319-320, walking
`self.pkone_extensions.values()` from bases 0/0 and raising the cross-board
`AssertionError` when no board matches. -/
def check_switch_coil_combination (switch_number coil_number : Int)
    (s : PKONEState) : Except PKONEError Unit :=
  if checkWalk switch_number coil_number (s.pkone_extensions.map Prod.snd) 0 0 then
    .ok ()
  else
    .error .crossBoardMismatch

/-- `get_hw_switch_states` (pkone.py lines 383-385): returns
`self.hw_switch_data` unchanged. -/
def get_hw_switch_states (s : PKONEState) : Option (List (String × Nat)) :=
  s.hw_switch_data

/-- Python `bytearray().extend(text)` on a `str` argument: iterating a
non-empty `str` yields one-character strings, which are not integers, so
CPython raises `TypeError` at the first element; the empty string extends by
nothing. -/
def pyByteArrayExtendStr (l : List Char) : Except PKONEError (List Nat) :=
  match l with
  | [] => .ok []
  | _ :: _ => .error .typeError

/-- The inner loop of `receive_all_switches` (pkone.py lines 406-407): store
`switch_state_array[index]` under the key `"{}-{}".format(extension_id,
index + 1)` for each index. -/
def psaEntries (hw : List (String × Nat)) (extension_id : Int)
    (arr : List Nat) : List (String × Nat) :=
  (List.range arr.length).foldl
    (fun h index =>
      pyDictSet h (toString extension_id ++ "-" ++ toString (index + 1))
        (arr.getD index 0))
    hw

/-- One iteration of the segment loop of `receive_all_switches` (pkone.py
lines 397-407): `int` of the first character (`IndexError` on an empty
segment, `ValueError` on a non-digit), then `bytearray().extend` of the rest,
then the per-switch entry loop. -/
def psaSegment (hw : List (String × Nat)) (seg : List Char) :
    Except PKONEError (List (String × Nat)) :=
  match seg with
  | [] => .error .indexError
  | c :: rest =>
    match pyIntChars [c] with
    | none => .error .valueError
    | some extension_id =>
      match pyByteArrayExtendStr rest with
      | .error e => .error e
      | .ok arr => .ok (psaEntries hw extension_id arr)

/-- The segment loop of `receive_all_switches`, threading `hw_states`. -/
def psaFold : List (List Char) → List (String × Nat) →
    Except PKONEError (List (String × Nat))
  | [], hw => .ok hw
  | seg :: rest, hw =>
    match psaSegment hw seg with
    | .ok hw' => psaFold rest hw'
    | .error e => .error e

/-- The pure decode of `receive_all_switches` (pkone.py lines 387-409):
`msg[3:-1].split('X')`, then the segment loop starting from an empty dict. -/
def psaDecode (msg : String) : Except PKONEError (List (String × Nat)) :=
  psaFold (splitOnChar 'X' (msg.toList.drop 3).dropLast) []

/-- `receive_all_switches` (pkone.py lines 387-409): on completion the freshly
built dict replaces `self.hw_switch_data` wholesale; if the loop raises, the
attribute is never assigned. -/
def receive_all_switches (msg : String) (s : PKONEState) :
    Except PKONEError PKONEState :=
  match psaDecode msg with
  | .ok hw_states => .ok { s with hw_switch_data := some hw_states }
  | .error e => .error e

/-- Result type of `receive_switch`: the `PKONESwitchNumber` namedtuple. -/
structure PKONESwitchNumber where
  board_address_id : Int
  switch_number : Int
deriving DecidableEq, Repr

/-- `receive_switch` (pkone.py lines 411-421): builds
`PKONESwitchNumber(int(msg[4]), int(msg[5:-2]))` and `int(msg[-1])` and hands
the event to the switch controller; the model returns the event.  `msg[4]`
raises `IndexError` on a short message, and each `int` raises `ValueError` on
a non-digit field. -/
def receive_switch (msg : String) :
    Except PKONEError (PKONESwitchNumber × Int) :=
  match (msg.toList.drop 4).head? with
  | none => .error .indexError
  | some c4 =>
    match pyIntChars [c4] with
    | none => .error .valueError
    | some board_id =>
      match pyIntChars ((msg.toList.drop 5).dropLast.dropLast) with
      | none => .error .valueError
      | some switch_num =>
        match msg.toList.getLast? with
        | none => .error .indexError
        | some clast =>
          match pyIntChars [clast] with
          | none => .error .valueError
          | some switch_state => .ok (⟨board_id, switch_num⟩, switch_state)

/-- Python `int(x)` on a rational value: truncation toward zero. -/
def pyIntTrunc (q : ℚ) : Int := q.num.tdiv q.den

/-- The command string built by `go_to_position` (pkone_servo.py lines 28-31):
`'PSC{}{}{}'.format(board_address_id, servo_number, position_numeric)`. -/
def servoPositionCmd (number : PKONEServoNumber) (position_numeric : Int) : String :=
  "PSC" ++ toString number.board_address_id ++ toString number.servo_number ++
    toString position_numeric

/-- `PKONEServo.go_to_position` (pkone_servo.py lines 20-33): raise unless
`0 <= position <= 1`, then embed `int(position * 255)` in the `PSC` command
(the position is modelled as a rational; every concrete position the claims
mention is exactly representable in binary floating point, and so is its
product with 255, so the rational model computes the same command). -/
def go_to_position (number : PKONEServoNumber) (position : ℚ) :
    Except PKONEError String :=
  if position < 0 ∨ position > 1 then
    .error .positionOutOfRange
  else
    .ok (servoPositionCmd number (pyIntTrunc (position * 255)))

/-! ### Helper lemmas -/

/-- For a non-negative rational, Python truncation agrees with the floor. -/
theorem pyIntTrunc_eq_floor (q : ℚ) (h : 0 ≤ q) : pyIntTrunc q = ⌊q⌋ := by
  rw [Rat.floor_def, pyIntTrunc]
  exact Int.tdiv_eq_ediv (Rat.num_nonneg.mpr h) (Int.ofNat_nonneg _)

/-- Cumulative switch total of the first `i` boards in iteration order. -/
def switchBase (boards : List Board) (i : Nat) : Nat :=
  ((boards.take i).map (fun b => b.switch_count)).sum

/-- Cumulative coil total of the first `i` boards in iteration order. -/
def coilBase (boards : List Board) (i : Nat) : Nat :=
  ((boards.take i).map (fun b => b.coil_count)).sum

theorem switchBase_zero (bs : List Board) : switchBase bs 0 = 0 := rfl

theorem coilBase_zero (bs : List Board) : coilBase bs 0 = 0 := rfl

theorem switchBase_cons_succ (b : Board) (rest : List Board) (i : Nat) :
    switchBase (b :: rest) (i + 1) = b.switch_count + switchBase rest i := by
  simp [switchBase]

theorem coilBase_cons_succ (b : Board) (rest : List Board) (i : Nat) :
    coilBase (b :: rest) (i + 1) = b.coil_count + coilBase rest i := by
  simp [coilBase]

/-- The spec's description of the same-board scan (§4.3): some board, reached
at step `i` of the iteration, covers the switch number in its cumulative
switch window and the coil number in its cumulative coil window
simultaneously. -/
def sameBoardWitnessed (switch_number coil_number : Int) (bs : List Board) : Prop :=
  ∃ i ∈ List.range bs.length,
    (switchBase bs i : Int) ≤ switch_number ∧
    switch_number < (switchBase bs i : Int) + ((bs.getD i default).switch_count : Int) ∧
    (coilBase bs i : Int) ≤ coil_number ∧
    coil_number < (coilBase bs i : Int) + ((bs.getD i default).coil_count : Int)

/-- The loop of `_check_switch_coil_combination` succeeds from arbitrary
running bases exactly when some step covers both numbers at once. -/
theorem checkWalk_iff (sn cn : Int) :
    ∀ (bs : List Board) (s0 c0 : Int),
    checkWalk sn cn bs s0 c0 = true ↔
      ∃ i ∈ List.range bs.length,
        s0 + (switchBase bs i : Int) ≤ sn ∧
        sn < s0 + (switchBase bs i : Int) + ((bs.getD i default).switch_count : Int) ∧
        c0 + (coilBase bs i : Int) ≤ cn ∧
        cn < c0 + (coilBase bs i : Int) + ((bs.getD i default).coil_count : Int)
  | [], s0, c0 => by simp [checkWalk]
  | b :: rest, s0, c0 => by
    rw [checkWalk]
    by_cases h : s0 ≤ sn ∧ sn < s0 + (b.switch_count : Int) ∧
        c0 ≤ cn ∧ cn < c0 + (b.coil_count : Int)
    · rw [if_pos h]
      simp only [eq_self_iff_true, true_iff]
      refine ⟨0, ?_, ?_, ?_, ?_, ?_⟩
      · simp [List.mem_range]
      all_goals
        simp only [switchBase_zero, coilBase_zero, List.getD_cons_zero,
          Nat.cast_zero, add_zero]
      · exact h.1
      · exact h.2.1
      · exact h.2.2.1
      · exact h.2.2.2
    · rw [if_neg h, checkWalk_iff sn cn rest (s0 + (b.switch_count : Int))
        (c0 + (b.coil_count : Int))]
      constructor
      · rintro ⟨i, hi, h1, h2, h3, h4⟩
        rw [List.mem_range] at hi
        refine ⟨i + 1, ?_, ?_, ?_, ?_, ?_⟩
        · rw [List.mem_range]; simp only [List.length_cons]; omega
        · rw [switchBase_cons_succ]; push_cast; omega
        · rw [switchBase_cons_succ]
          simp only [List.getD_cons_succ]
          push_cast; omega
        · rw [coilBase_cons_succ]; push_cast; omega
        · rw [coilBase_cons_succ]
          simp only [List.getD_cons_succ]
          push_cast; omega
      · rintro ⟨i, hi, h1, h2, h3, h4⟩
        rw [List.mem_range] at hi
        cases i with
        | zero =>
          exfalso
          apply h
          simp only [switchBase_zero, coilBase_zero, List.getD_cons_zero,
            Nat.cast_zero, add_zero] at h1 h2 h3 h4
          exact ⟨h1, h2, h3, h4⟩
        | succ j =>
          rw [switchBase_cons_succ] at h1 h2
          rw [coilBase_cons_succ] at h3 h4
          simp only [List.getD_cons_succ] at h2 h4
          simp only [List.length_cons] at hi
          refine ⟨j, ?_, ?_, ?_, ?_, ?_⟩
          · rw [List.mem_range]; omega
          · push_cast at h1 ⊢; omega
          · push_cast at h2 ⊢; omega
          · push_cast at h3 ⊢; omega
          · push_cast at h4 ⊢; omega

/-- Every error of a segment iteration is a `TypeError`, `ValueError` or
`IndexError`; in particular it is never `UnknownBoard`. -/
theorem psaSegment_ne_unknown (hw : List (String × Nat)) (seg : List Char) :
    psaSegment hw seg ≠ .error .unknownBoard := by
  cases seg with
  | nil => simp [psaSegment]
  | cons c rest =>
    cases h1 : pyIntChars [c] with
    | none => simp [psaSegment, h1]
    | some k =>
      cases rest with
      | nil => simp [psaSegment, h1, pyByteArrayExtendStr]
      | cons d ds => simp [psaSegment, h1, pyByteArrayExtendStr]

/-- The whole segment loop never raises `UnknownBoard`. -/
theorem psaFold_ne_unknown :
    ∀ (segs : List (List Char)) (hw : List (String × Nat)),
    psaFold segs hw ≠ .error .unknownBoard
  | [], hw => by simp [psaFold]
  | seg :: rest, hw => by
    cases hseg : psaSegment hw seg with
    | ok hw' => simpa [psaFold, hseg] using psaFold_ne_unknown rest hw'
    | error e =>
      simp only [psaFold, hseg]
      intro hcontra
      exact psaSegment_ne_unknown hw seg (hseg.trans hcontra)

/-! ### Claims -/

/-- Claim C1 (refuted — code bug): registering a lightshow board with
`address_id = 0` in an empty registry inserts it into `pkone_extensions` and
leaves `pkone_lightshows` empty, the opposite of the claimed behaviour:
line 155 of the source assigns to `self.pkone_extensions`, although the
duplicate check, the `pkone_lightshows` type annotation and `get_info_string`
all treat `self.pkone_lightshows` as the home of lightshow boards. -/
theorem register_lightshow_board_inserts_into_extensions :
    register_lightshow_board ⟨0, 3, 4, 2⟩ initialPlatformState =
      ({ pkone_extensions := [((0 : Int), ⟨0, 3, 4, 2⟩)], pkone_lightshows := [],
         hw_switch_data := none }, none) := by
  decide

/-- Claim C2 (confirmed): the same-board check succeeds exactly when some
board, reached while walking `pkone_extensions.values()` in iteration order
with running switch/coil bases, covers the switch number in its cumulative
switch window and the coil number in its cumulative coil window at the same
step; otherwise it fails with the cross-board mismatch error. -/
theorem check_switch_coil_combination_iff (sn cn : Int) (s : PKONEState) :
    (check_switch_coil_combination sn cn s = .ok () ↔
      sameBoardWitnessed sn cn (s.pkone_extensions.map Prod.snd)) ∧
    (¬ sameBoardWitnessed sn cn (s.pkone_extensions.map Prod.snd) →
      check_switch_coil_combination sn cn s = .error .crossBoardMismatch) := by
  have Hspec : checkWalk sn cn (s.pkone_extensions.map Prod.snd) 0 0 = true ↔
      sameBoardWitnessed sn cn (s.pkone_extensions.map Prod.snd) := by
    have H := checkWalk_iff sn cn (s.pkone_extensions.map Prod.snd) 0 0
    simp only [zero_add] at H
    exact H
  constructor
  · rw [check_switch_coil_combination]
    by_cases hw : checkWalk sn cn (s.pkone_extensions.map Prod.snd) 0 0 = true
    · rw [if_pos hw]
      exact ⟨fun _ => Hspec.mp hw, fun _ => rfl⟩
    · rw [if_neg hw]
      constructor
      · intro hcontra; exact absurd hcontra (by simp)
      · intro hs; exact absurd (Hspec.mpr hs) hw
  · intro hns
    rw [check_switch_coil_combination, if_neg]
    intro hw
    exact hns (Hspec.mp hw)

/-- Witness for C2 at a concrete registry: a single board exposing one switch
and no coils covers no coil window, so the pair (0, 0) is rejected with the
cross-board mismatch error. -/
theorem check_switch_coil_combination_iff_witness :
    check_switch_coil_combination 0 0
        ⟨[((0 : Int), ⟨0, 1, 0, 0⟩)], [], none⟩ =
      .error .crossBoardMismatch :=
  (check_switch_coil_combination_iff 0 0
      ⟨[((0 : Int), ⟨0, 1, 0, 0⟩)], [], none⟩).2 (by
    unfold sameBoardWitnessed
    decide)

/-- Claim C3 (refuted — code bug): on a board with `coil_count = 4` and
`servo_count = 2`, the parser accepts raw index 3 (a coil slot; effective
servo index -1) instead of failing with `IndexOutOfRange`: the source checks
only `servo_count <= servo_num - driver_count` and never the lower bound.
Raw 4 succeeds and raw 6 fails, as the claim says, but the success returns
the raw number unchanged. -/
theorem parse_servo_number_accepts_coil_slot :
    parse_servo_number [((1 : Int), ⟨1, 8, 4, 2⟩)] "1-3" = .ok ⟨1, 3⟩ ∧
    parse_servo_number [((1 : Int), ⟨1, 8, 4, 2⟩)] "1-4" = .ok ⟨1, 4⟩ ∧
    parse_servo_number [((1 : Int), ⟨1, 8, 4, 2⟩)] "1-6" =
      .error .indexOutOfRange := by
  refine ⟨by decide, by decide, by decide⟩

/-- Claim C4 (refuted — code bug): decoding the two-board snapshot payload
`"1101X2010X"` (message `"PSA1101X2010XE"`) produces no switch map at all:
`bytearray().extend` applied to the non-empty `str` remainder `"101"` of the
first segment raises `TypeError`, so the handler dies before any entry is
built and before `hw_switch_data` is assigned. -/
theorem receive_all_switches_example_type_error :
    receive_all_switches "PSA1101X2010XE" initialPlatformState =
      .error .typeError := by
  decide

/-- Claim C5 (corrected): the position-set command embeds
`int(position * 255)` — truncation toward zero, not `round` — so 0.5 embeds
127 while 1.0 embeds 255; the embedded value lies in [0, 255] for every
position in [0, 1], and every position outside [0, 1] fails with
`PositionOutOfRange`. -/
theorem go_to_position_truncates (n : PKONEServoNumber) (q : ℚ)
    (h0 : 0 ≤ q) (h1 : q ≤ 1) :
    go_to_position n q = .ok (servoPositionCmd n (pyIntTrunc (q * 255))) ∧
    0 ≤ pyIntTrunc (q * 255) ∧ pyIntTrunc (q * 255) ≤ 255 ∧
    pyIntTrunc ((1 : ℚ) / 2 * 255) = 127 ∧ pyIntTrunc ((1 : ℚ) * 255) = 255 ∧
    ∀ q' : ℚ, q' < 0 ∨ 1 < q' →
      go_to_position n q' = .error .positionOutOfRange := by
  have hq255 : (0 : ℚ) ≤ q * 255 := mul_nonneg h0 (by norm_num)
  have trunc_eq : pyIntTrunc (q * 255) = ⌊q * 255⌋ := pyIntTrunc_eq_floor _ hq255
  refine ⟨?_, ?_, ?_, ?_, ?_, ?_⟩
  · have hc : ¬(q < 0 ∨ q > 1) := by push_neg; exact ⟨h0, h1⟩
    rw [go_to_position, if_neg hc]
  · rw [trunc_eq]
    exact Int.floor_nonneg.mpr hq255
  · rw [trunc_eq]
    have hle : q * 255 ≤ (255 : ℚ) := by nlinarith
    have := Int.floor_le_floor hle
    simpa using this
  · rw [pyIntTrunc_eq_floor _ (by norm_num), Int.floor_eq_iff]
    norm_num
  · rw [pyIntTrunc_eq_floor _ (by norm_num), Int.floor_eq_iff]
    norm_num
  · intro q' hq'
    rw [go_to_position, if_pos hq']

/-- Counterexample for C5: at position 0.5 the command embeds 127, not the
`round(0.5 * 255) = 128` the claim requires. -/
theorem go_to_position_half_embeds_127 :
    go_to_position ⟨1, 5⟩ ((1 : ℚ) / 2) = .ok "PSC15127" ∧
    "PSC15127" ≠ "PSC15128" := by
  constructor
  · rw [go_to_position, if_neg (by norm_num)]
    have h127 : pyIntTrunc ((1 : ℚ) / 2 * 255) = 127 := by
      rw [pyIntTrunc_eq_floor _ (by norm_num), Int.floor_eq_iff]
      norm_num
    rw [h127]
    decide
  · decide

/-- Witness for C5 at position 0.5. -/
theorem go_to_position_truncates_witness :
    go_to_position ⟨1, 5⟩ ((1 : ℚ) / 2) =
      .ok (servoPositionCmd ⟨1, 5⟩ (pyIntTrunc ((1 : ℚ) / 2 * 255))) :=
  (go_to_position_truncates ⟨1, 5⟩ ((1 : ℚ) / 2) (by norm_num) (by norm_num)).1

/-- Claim C6 (corrected): neither inbound decoder ever fails with an
`UnknownBoard` error — the registry is simply not consulted: the bulk
decoder's errors are the builtin `TypeError` / `ValueError` / `IndexError`,
the single-transition decoder's are `ValueError` / `IndexError`, and a bulk
decode that completes leaves both board maps untouched. -/
theorem receive_decoders_never_unknown_board :
    (∀ (msg : String) (s : PKONEState),
        receive_all_switches msg s ≠ .error .unknownBoard) ∧
    (∀ msg : String, receive_switch msg ≠ .error .unknownBoard) ∧
    (∀ (msg : String) (s s' : PKONEState),
        receive_all_switches msg s = .ok s' →
        s'.pkone_extensions = s.pkone_extensions ∧
        s'.pkone_lightshows = s.pkone_lightshows) := by
  refine ⟨?_, ?_, ?_⟩
  · intro msg s
    unfold receive_all_switches
    cases hd : psaDecode msg with
    | ok m => simp
    | error e =>
      show Except.error e ≠ Except.error PKONEError.unknownBoard
      intro hcontra
      have he : e = PKONEError.unknownBoard := Except.error.inj hcontra
      apply psaFold_ne_unknown (splitOnChar 'X' (msg.toList.drop 3).dropLast) []
      calc psaFold (splitOnChar 'X' (msg.toList.drop 3).dropLast) []
          = psaDecode msg := rfl
        _ = .error e := hd
        _ = .error .unknownBoard := by rw [he]
  · intro msg
    unfold receive_switch
    cases h1 : (msg.toList.drop 4).head? with
    | none => simp [h1]
    | some c4 =>
      cases h2 : pyIntChars [c4] with
      | none => simp [h1, h2]
      | some b =>
        cases h3 : pyIntChars ((msg.toList.drop 5).dropLast.dropLast) with
        | none => simp [h1, h2, h3]
        | some nnum =>
          cases h4 : msg.toList.getLast? with
          | none => simp [h1, h2, h3, h4]
          | some clast =>
            cases h5 : pyIntChars [clast] with
            | none => simp [h1, h2, h3, h4, h5]
            | some st => simp [h1, h2, h3, h4, h5]
  · intro msg s s' h
    unfold receive_all_switches at h
    cases hd : psaDecode msg with
    | ok m =>
      rw [hd] at h
      obtain rfl := Except.ok.inj h
      exact ⟨rfl, rfl⟩
    | error e =>
      rw [hd] at h
      exact absurd h (by simp)

/-- Counterexample for C6: with an empty registry, the snapshot message
`"PSA1E"` — whose only segment names the unregistered board 1 — decodes
successfully and installs an (empty) switch map instead of failing with an
`UnknownBoard` error. -/
theorem receive_all_switches_unregistered_board_ok :
    initialPlatformState.pkone_extensions = [] ∧
    receive_all_switches "PSA1E" initialPlatformState =
      .ok { initialPlatformState with hw_switch_data := some [] } := by
  refine ⟨rfl, by decide⟩

/-- Witness for C6's registry-preservation conjunct at a concrete decode. -/
theorem receive_decoders_never_unknown_board_witness :
    PKONEState.pkone_extensions
        { pkone_extensions := [((3 : Int), ⟨3, 1, 1, 0⟩)], pkone_lightshows := [],
          hw_switch_data := some [] } =
      PKONEState.pkone_extensions
        { pkone_extensions := [((3 : Int), ⟨3, 1, 1, 0⟩)], pkone_lightshows := [],
          hw_switch_data := none } ∧
    PKONEState.pkone_lightshows
        { pkone_extensions := [((3 : Int), ⟨3, 1, 1, 0⟩)], pkone_lightshows := [],
          hw_switch_data := some [] } =
      PKONEState.pkone_lightshows
        { pkone_extensions := [((3 : Int), ⟨3, 1, 1, 0⟩)], pkone_lightshows := [],
          hw_switch_data := none } :=
  receive_decoders_never_unknown_board.2.2 "PSA3E"
    { pkone_extensions := [((3 : Int), ⟨3, 1, 1, 0⟩)], pkone_lightshows := [],
      hw_switch_data := none }
    { pkone_extensions := [((3 : Int), ⟨3, 1, 1, 0⟩)], pkone_lightshows := [],
      hw_switch_data := some [] } (by decide)

/-- Claim C7 (confirmed): requesting rule pattern 6 — pulse on hit and enable
and release and disable, the single-wound-coil-with-EOS pattern — always
fails with `UnsupportedHardwareFeature`, for every combination of enable
switch, EOS switch, coil and repulse settings, and never produces a
command. -/
theorem rule6_always_unsupported {α β γ δ : Type} (enable_switch : α)
    (eos_switch : β) (coil : γ) (repulse_settings : Option δ) :
    set_pulse_on_hit_and_enable_and_release_and_disable_rule enable_switch
        eos_switch coil repulse_settings =
      .error .unsupportedHardwareFeature :=
  rfl

/-- Claim C8 (confirmed): for every `address_id` in [0, 8), registering an
extension board in an empty registry succeeds and inserts the board, and any
second registration with the same `address_id` — extension or lightshow —
fails with `DuplicateAddress` (the duplicate check precedes the range
check, so this holds even for lightshow re-registrations outside [0, 4)). -/
theorem register_extension_once_then_duplicate (a : Int) (b b' : Board)
    (h0 : 0 ≤ a) (h8 : a < 8) (hb : b.address_id = a) (hb' : b'.address_id = a) :
    register_extension_board b initialPlatformState =
      ({ pkone_extensions := [(a, b)], pkone_lightshows := [],
         hw_switch_data := none }, none) ∧
    (register_extension_board b'
        { pkone_extensions := [(a, b)], pkone_lightshows := [],
          hw_switch_data := none }).2 = some .duplicateAddress ∧
    (register_lightshow_board b'
        { pkone_extensions := [(a, b)], pkone_lightshows := [],
          hw_switch_data := none }).2 = some .duplicateAddress := by
  subst hb
  refine ⟨?_, ?_, ?_⟩
  · simp [register_extension_board, pyDictContains, pyDictSet,
      initialPlatformState, h0, h8]
  · simp [register_extension_board, pyDictContains, hb']
  · simp [register_lightshow_board, pyDictContains, hb']

/-- Witness for C8 at address 5. -/
theorem register_extension_once_then_duplicate_witness :
    register_extension_board ⟨5, 1, 2, 3⟩ initialPlatformState =
      ({ pkone_extensions := [((5 : Int), ⟨5, 1, 2, 3⟩)], pkone_lightshows := [],
         hw_switch_data := none }, none) ∧
    (register_extension_board ⟨5, 0, 0, 0⟩
        { pkone_extensions := [((5 : Int), ⟨5, 1, 2, 3⟩)], pkone_lightshows := [],
          hw_switch_data := none }).2 = some .duplicateAddress ∧
    (register_lightshow_board ⟨5, 0, 0, 0⟩
        { pkone_extensions := [((5 : Int), ⟨5, 1, 2, 3⟩)], pkone_lightshows := [],
          hw_switch_data := none }).2 = some .duplicateAddress :=
  register_extension_once_then_duplicate 5 ⟨5, 1, 2, 3⟩ ⟨5, 0, 0, 0⟩
    (by decide) (by decide) rfl rfl

/-- Claim C9 (confirmed): whenever a registration call fails — duplicate
address or address out of range — both board maps are exactly as before the
call: in both register functions the single mutating statement comes after
every check. -/
theorem register_error_preserves_state (b : Board) (s : PKONEState)
    (e : PKONEError) :
    ((register_extension_board b s).2 = some e →
      (register_extension_board b s).1 = s) ∧
    ((register_lightshow_board b s).2 = some e →
      (register_lightshow_board b s).1 = s) := by
  constructor
  · intro h
    by_cases h1 : (pyDictContains s.pkone_extensions b.address_id ∨
        pyDictContains s.pkone_lightshows b.address_id)
    · simp [register_extension_board, h1]
    · by_cases h2 : 0 ≤ b.address_id ∧ b.address_id < 8
      · simp [register_extension_board, h1, h2] at h
      · simp [register_extension_board, h1, h2]
  · intro h
    by_cases h1 : (pyDictContains s.pkone_extensions b.address_id ∨
        pyDictContains s.pkone_lightshows b.address_id)
    · simp [register_lightshow_board, h1]
    · by_cases h2 : 0 ≤ b.address_id ∧ b.address_id < 4
      · simp [register_lightshow_board, h1, h2] at h
      · simp [register_lightshow_board, h1, h2]

/-- Witness for C9: a failing registration (address 9 is out of range) leaves
the empty state untouched. -/
theorem register_error_preserves_state_witness :
    (register_extension_board ⟨9, 0, 0, 0⟩ initialPlatformState).1 =
      initialPlatformState :=
  (register_error_preserves_state ⟨9, 0, 0, 0⟩ initialPlatformState
      .addressOutOfRange).1 (by decide)

/-- Claim C10 (confirmed): before any snapshot has been processed,
`get_hw_switch_states` returns `None` (the `__init__` value); after a
snapshot message is processed to completion, it returns exactly the map
decoded from that message — a pure function of the message, so any earlier
map is entirely replaced. -/
theorem get_hw_switch_states_snapshot :
    get_hw_switch_states initialPlatformState = none ∧
    ∀ (msg : String) (s s' : PKONEState),
      receive_all_switches msg s = .ok s' →
      ∃ m, psaDecode msg = .ok m ∧ get_hw_switch_states s' = some m := by
  refine ⟨rfl, ?_⟩
  intro msg s s' h
  unfold receive_all_switches at h
  cases hd : psaDecode msg with
  | ok m =>
    rw [hd] at h
    obtain rfl := Except.ok.inj h
    exact ⟨m, rfl, rfl⟩
  | error e =>
    rw [hd] at h
    exact absurd h (by simp)

/-- Witness for C10: processing `"PSA1E"` over a state that already holds a
map replaces it with the decode of the new message. -/
theorem get_hw_switch_states_snapshot_witness :
    ∃ m, psaDecode "PSA1E" = .ok m ∧
      get_hw_switch_states ⟨[], [], some []⟩ = some m :=
  get_hw_switch_states_snapshot.2 "PSA1E" ⟨[], [], some [("9-9", 1)]⟩
    ⟨[], [], some []⟩ (by decide)

end PKONE
